import Mathlib

/-!
Verification development for the google-sheets-api-integration repository.

The Python sources are shallowly embedded: every external effect (environment
variables, subprocess output, the vendor HTTP transport, the file system) is
an explicit input, and each Python function becomes a total Lean function on
those inputs.  Python `Optional[str]` becomes `Option String`; a raised
exception that the source catches is a constructor of an outcome type; a call
to `sys.exit` is the `exits` constructor of `LinearOutcome`.
-/

/-! ## Python string primitives (str.strip, str.lower, str.split(",")) -/

/-- Characters removed by Python `str.strip()` (ASCII whitespace). -/
def isPySpace (c : Char) : Bool :=
  c = ' ' || c = '\t' || c = '\n' || c = '\r' || c = '\x0b' || c = '\x0c'

/-- `str.strip()` on the character list. -/
def pyStripChars (cs : List Char) : List Char :=
  ((cs.dropWhile isPySpace).reverse.dropWhile isPySpace).reverse

/-- Python `s.strip()`. -/
def pyStrip (s : String) : String :=
  String.mk (pyStripChars s.data)

/-- Python `s.lower()` (ASCII case folding, all the claims use ASCII data). -/
def pyLower (s : String) : String :=
  String.mk (s.data.map Char.toLower)

/-- Helper for Python `s.split(",")`: accumulate the current item. -/
def splitCommaAux : List Char → List Char → List (List Char)
  | [], acc => [acc.reverse]
  | c :: cs, acc =>
    if c = ',' then acc.reverse :: splitCommaAux cs [] else splitCommaAux cs (c :: acc)

/-- Python `s.split(",")`: split at every comma, keeping empty items. -/
def pySplitComma (s : String) : List String :=
  (splitCommaAux s.data []).map String.mk

/-- Python `", ".join(items)`. -/
def joinComma : List String → String
  | [] => ""
  | s :: rest =>
    match rest with
    | [] => s
    | _ :: _ => s ++ ", " ++ joinComma rest

/-- Python truthiness of an `Optional[str]`: `None` and `""` are falsy. -/
def pyTruthy : Option String → Bool
  | none => false
  | some s => if s = "" then false else true

/-- `str.startswith` on character lists. -/
def charsStartWith : List Char → List Char → Bool
  | _, [] => true
  | [], _ :: _ => false
  | c :: cs, p :: ps => if c = p then charsStartWith cs ps else false

/-- Python `s.startswith(pat)`. -/
def strStartsWith (s pat : String) : Bool :=
  charsStartWith s.data pat.data

/-! ## Credential strategies (google_sheets_integration.py lines 50-105)

Each strategy is a pure function of its raw source: for `_from_env` and
`_from_json_env` the raw environment-variable value (`none` = unset), and for
the Keychain / 1Password strategies the subprocess stdout (`none` = the
subprocess raised `FileNotFoundError` or `CalledProcessError`). -/

/-- `_from_env`: `value.strip() if value else None`. -/
def fromEnvGS : Option String → Option String
  | none => none
  | some v => if v = "" then none else some (pyStrip v)

/-- `_from_json_env`: same shape as `_from_env` over the JSON variable. -/
def fromJsonEnvGS : Option String → Option String
  | none => none
  | some v => if v = "" then none else some (pyStrip v)

/-- `output = result.stdout.strip(); return output or None`. -/
def stdoutOrNone : Option String → Option String
  | none => none
  | some out => if pyStrip out = "" then none else some (pyStrip out)

/-- `_from_keychain`: Keychain subprocess stdout, stripped, `or None`. -/
def fromKeychainGS (proc : Option String) : Option String :=
  stdoutOrNone proc

/-- `_from_1password`: `op read` subprocess stdout, stripped, `or None`. -/
def from1PasswordGS (proc : Option String) : Option String :=
  stdoutOrNone proc

/-- The ambient inputs of the credential code of google_sheets_integration.py. -/
structure GsEnv where
  credentialSources : Option String
  serviceAccount : Option String
  serviceAccountJson : Option String
  keychainStdout : Option String
  onePasswordStdout : Option String

/-- The `CREDENTIAL_SOURCES` mapping (lines 100-105) as a lookup: `none` means
the key is absent from the dict, `some r` means the strategy is present and
invoking it returns `r`. -/
def CREDENTIAL_SOURCES (e : GsEnv) : String → Option (Option String) := fun k =>
  if k = "json" then some (fromJsonEnvGS e.serviceAccountJson)
  else if k = "env" then some (fromEnvGS e.serviceAccount)
  else if k = "keychain" then some (fromKeychainGS e.keychainStdout)
  else if k = "1password" then some (from1PasswordGS e.onePasswordStdout)
  else none

/-! ## Resolution order and the retrieval loop (lines 123-155) -/

/-- The hard-coded default order (line 129). -/
def defaultSourceOrder : List String :=
  ["json", "env", "keychain", "1password"]

/-- Lines 123-129: parse `GOOGLE_SHEETS_CREDENTIAL_SOURCES`; absent or empty
falls back to the default order, otherwise split on commas, drop items that
strip to empty, and trim + lower-case the rest. -/
def parseSources : Option String → List String
  | none => defaultSourceOrder
  | some s =>
    if s = "" then defaultSourceOrder
    else
      ((pySplitComma s).filter (fun item => if pyStrip item = "" then false else true)).map
        (fun item => pyLower (pyStrip item))

/-- The retrieval loop of `get_service_account_credentials` (lines 134-144).
Returns the resolved value (if any), the `tried` log, and the list of keys
whose retriever was actually invoked (in invocation order). -/
def resolveLoop (table : String → Option (Option String)) :
    List String → List String → List String → Option String × List String × List String
  | [], tried, invoked => (none, tried, invoked)
  | source :: rest, tried, invoked =>
    match table source with
    | none => resolveLoop table rest (tried ++ [source ++ " (unknown)"]) invoked
    | some value =>
      if pyTruthy value then (value, tried, invoked ++ [source])
      else resolveLoop table rest (tried ++ [source]) (invoked ++ [source])

/-- The `tried` entry the loop records for a key: the bare key when the key is
in the strategy table, otherwise the key marked `" (unknown)"`. -/
def triedLabel (table : String → Option (Option String)) (k : String) : String :=
  if (table k).isSome then k else k ++ " (unknown)"

/-- The static guidance appended to the exhaustion message (lines 150-154). -/
def authGuidance : String :=
  "Set GOOGLE_SHEETS_SERVICE_ACCOUNT environment variable, store credentials in Keychain, or configure 1Password.\nOverride lookup order via GOOGLE_SHEETS_CREDENTIAL_SOURCES (comma separated)."

/-- The `GoogleSheetsAuthError` message built on exhaustion (lines 147-154). -/
def authErrorMessage (tried : List String) : String :=
  "Unable to retrieve Google Sheets service account credentials.\n" ++
    (if tried = [] then "" else "Tried sources: " ++ joinComma tried ++ "\n") ++
    authGuidance

/-- Lines 123-155 of `get_service_account_credentials`: choose the order, run
the loop, and raise (`Except.error`) the exhaustion message when nothing
resolved.  The second component is the invoked-keys log of the loop. -/
def resolveCredentialData (table : String → Option (Option String))
    (sourceEnv : Option String) : Except String String × List String :=
  match resolveLoop table (parseSources sourceEnv) [] [] with
  | (some v, _, invoked) => (.ok v, invoked)
  | (none, tried, invoked) => (.error (authErrorMessage tried), invoked)

/-! ## Post-processing of the resolved secret (lines 157-197) -/

/-- External accesses performed while post-processing a resolved secret. -/
inductive CredEffect where
  | opDeref (ref : String)
  | jsonParse (s : String)
  | fileRead (path : String)
deriving DecidableEq

/-- Result of `service_account.Credentials.from_service_account_file`. -/
inductive FileLoadResult where
  | ok
  | notFound
  | otherError (msg : String)
deriving DecidableEq

/-- The external world of the post-processing code: the `op read` subprocess
(`none` = it raised), whether `json.loads` succeeds, and the file load. -/
structure CredWorld where
  opRead : String → Option String
  jsonParses : String → Bool
  fileLoad : String → FileLoadResult

/-- Outcome of the post-processing: inline JSON credentials, file credentials,
or a raised `GoogleSheetsAuthError` with its message. -/
inductive CredOutcome where
  | inlineCreds (jsonStr : String)
  | fileCreds (path : String)
  | authError (msg : String)
deriving DecidableEq

/-- Lines 173-197: try `json.loads` (inline credentials), else treat the
secret as a file path; `FileNotFoundError` and other load failures raise
`GoogleSheetsAuthError`.  Also returns the accesses performed. -/
def postProcessParsed (w : CredWorld) (cred : String) : CredOutcome × List CredEffect :=
  if w.jsonParses cred then (.inlineCreds cred, [.jsonParse cred])
  else
    match w.fileLoad cred with
    | .ok => (.fileCreds cred, [.jsonParse cred, .fileRead cred])
    | .notFound =>
      (.authError ("Service account file not found: " ++ cred),
        [.jsonParse cred, .fileRead cred])
    | .otherError m =>
      (.authError ("Failed to load service account credentials: " ++ m),
        [.jsonParse cred, .fileRead cred])

/-- Lines 157-197: one `op read` dereference for an `op://` secret (a failed
dereference raises naming the reference), then the parse/file chain. -/
def postProcess (w : CredWorld) (credentialData : String) : CredOutcome × List CredEffect :=
  if strStartsWith credentialData "op://" then
    match w.opRead credentialData with
    | none =>
      (.authError ("Failed to read 1Password reference: " ++ credentialData),
        [.opDeref credentialData])
    | some out =>
      let d := postProcessParsed w (pyStrip out)
      (d.1, .opDeref credentialData :: d.2)
  else postProcessParsed w credentialData

/-- The whole of `get_service_account_credentials` (lines 108-197). -/
def get_service_account_credentials (w : CredWorld) (e : GsEnv) :
    CredOutcome × List CredEffect :=
  match (resolveCredentialData (CREDENTIAL_SOURCES e) e.credentialSources).1 with
  | .error m => (.authError m, [])
  | .ok cred => postProcess w cred

/-! ## Spreadsheet operations (google_sheets_integration.py lines 213-740)

Each operation's single vendor call is an explicit `ApiOutcome` input: `ok`
carries the parsed vendor payload, the `fail` cases are the exceptions the
Python `try` block catches (`HttpError` with its status, the raised
`GoogleSheetsAuthError`, and the catch-all `Exception`). -/

/-- An exception raised inside the body of a spreadsheet wrapper. -/
inductive ApiFailure where
  | httpError (status : Nat) (msg : String)
  | authError (msg : String)
  | otherError (msg : String)
deriving DecidableEq

/-- Outcome of the underlying lookup/transport call of one wrapper. -/
inductive ApiOutcome (α : Type) where
  | ok (v : α)
  | fail (f : ApiFailure)

/-- The uniform failure-to-message mapping shared (by duplication) by every
spreadsheet wrapper in the source. -/
def failureText (spreadsheetId : String) : ApiFailure → String
  | .httpError status msg =>
    if status = 404 then "Spreadsheet or sheet not found: " ++ spreadsheetId
    else "API error: " ++ msg
  | .authError msg => "Authentication failed: " ++ msg
  | .otherError msg => "Unexpected error: " ++ msg

/-- The `read_sheet` envelope (success with data/rows/columns, or error). -/
inductive ReadResult where
  | ok (data : List (List String)) (rows : Nat) (columns : Nat)
  | err (error : String)
deriving DecidableEq

/-- The `success` field of a `read_sheet` envelope. -/
def ReadResult.success : ReadResult → Bool
  | .ok .. => true
  | .err _ => false

/-- `read_sheet` (lines 213-274): `fetch` is the `values().get().execute()`
call with the `values` key already defaulted to `[]`. -/
def read_sheet (spreadsheetId : String) (fetch : ApiOutcome (List (List String))) :
    ReadResult :=
  match fetch with
  | .ok values =>
    .ok values values.length (match values with | [] => 0 | row :: _ => row.length)
  | .fail (.httpError status msg) =>
    if status = 404 then .err ("Spreadsheet or sheet not found: " ++ spreadsheetId)
    else .err ("API error: " ++ msg)
  | .fail (.authError msg) => .err ("Authentication failed: " ++ msg)
  | .fail (.otherError msg) => .err ("Unexpected error: " ++ msg)

/-- The `read_sheet_as_dicts` envelope. -/
inductive DictsResult where
  | ok (data : List (List (String × String))) (rows : Nat) (headers : List String)
  | err (error : String)
deriving DecidableEq

/-- The `success` field of a `read_sheet_as_dicts` envelope. -/
def DictsResult.success : DictsResult → Bool
  | .ok .. => true
  | .err _ => false

/-- Insertion into a Python dict modelled as an ordered association list:
overwriting an existing key keeps its position, a new key is appended. -/
def dictInsert (d : List (String × String)) (k v : String) : List (String × String) :=
  if d.any (fun p => p.1 == k) then d.map (fun p => if p.1 == k then (k, v) else p)
  else d ++ [(k, v)]

/-- Python `dict(pairs)` over an ordered pair list. -/
def pyDictOfPairs (pairs : List (String × String)) : List (String × String) :=
  pairs.foldl (fun d p => dictInsert d p.1 p.2) []

/-- Lines 327-331: pad the row with `""` up to the header width (Python list
multiplication by a negative count is empty, as is `Nat` subtraction), then
`dict(zip(headers, padded_row))`. -/
def rowDict (headers row : List String) : List (String × String) :=
  pyDictOfPairs (headers.zip (row ++ List.replicate (headers.length - row.length) ""))

/-- `read_sheet_as_dicts` (lines 277-338). -/
def read_sheet_as_dicts (spreadsheetId : String)
    (fetch : ApiOutcome (List (List String))) : DictsResult :=
  match read_sheet spreadsheetId fetch with
  | .err e => .err e
  | .ok values _ _ =>
    match values with
    | [] => .ok [] 0 []
    | headers :: dataRows =>
      let dictData := dataRows.map (rowDict headers)
      .ok dictData dictData.length headers

/-- Vendor payload of an append call: `updates.updatedRange` and
`updates.updatedRows`, each possibly absent (the source applies defaults). -/
structure AppendUpdates where
  updatedRange : Option String
  updatedRows : Option Nat
deriving DecidableEq

/-- The `append_row` / `append_rows` envelope. -/
inductive AppendResult where
  | ok (updated_range : String) (updated_rows : Nat)
  | err (error : String)
deriving DecidableEq

/-- The `success` field of an append envelope. -/
def AppendResult.success : AppendResult → Bool
  | .ok .. => true
  | .err _ => false

/-- `append_row` (lines 344-404): the body is `{"values": [values]}`. -/
def append_row (spreadsheetId : String) (values : List String)
    (call : List (List String) → ApiOutcome AppendUpdates) : AppendResult :=
  match call [values] with
  | .ok u => .ok (u.updatedRange.getD "") (u.updatedRows.getD 0)
  | .fail (.httpError status msg) =>
    if status = 404 then .err ("Spreadsheet or sheet not found: " ++ spreadsheetId)
    else .err ("API error: " ++ msg)
  | .fail (.authError msg) => .err ("Authentication failed: " ++ msg)
  | .fail (.otherError msg) => .err ("Unexpected error: " ++ msg)

/-- `append_rows` (lines 407-470): the body is `{"values": rows}`. -/
def append_rows (spreadsheetId : String) (rows : List (List String))
    (call : List (List String) → ApiOutcome AppendUpdates) : AppendResult :=
  match call rows with
  | .ok u => .ok (u.updatedRange.getD "") (u.updatedRows.getD 0)
  | .fail (.httpError status msg) =>
    if status = 404 then .err ("Spreadsheet or sheet not found: " ++ spreadsheetId)
    else .err ("API error: " ++ msg)
  | .fail (.authError msg) => .err ("Authentication failed: " ++ msg)
  | .fail (.otherError msg) => .err ("Unexpected error: " ++ msg)

/-- Vendor payload of an update call, with possibly-absent fields. -/
structure UpdateResponse where
  updatedRange : Option String
  updatedRows : Option Nat
  updatedCells : Option Nat
deriving DecidableEq

/-- The `update_range` envelope. -/
inductive UpdateResult where
  | ok (updated_range : String) (updated_rows : Nat) (updated_cells : Nat)
  | err (error : String)
deriving DecidableEq

/-- The `success` field of an `update_range` envelope. -/
def UpdateResult.success : UpdateResult → Bool
  | .ok .. => true
  | .err _ => false

/-- `update_range` (lines 606-685): the call receives the A1 range string
`sheet_name!range` and the 2-D values. -/
def update_range (spreadsheetId sheetName rangeA1 : String)
    (values : List (List String))
    (call : String → List (List String) → ApiOutcome UpdateResponse) : UpdateResult :=
  match call (sheetName ++ "!" ++ rangeA1) values with
  | .ok u => .ok (u.updatedRange.getD "") (u.updatedRows.getD 0) (u.updatedCells.getD 0)
  | .fail (.httpError status msg) =>
    if status = 404 then .err ("Spreadsheet or sheet not found: " ++ spreadsheetId)
    else .err ("API error: " ++ msg)
  | .fail (.authError msg) => .err ("Authentication failed: " ++ msg)
  | .fail (.otherError msg) => .err ("Unexpected error: " ++ msg)

/-- The `find_row` envelope: `row` is the 1-indexed match or `none`. -/
inductive FindResult where
  | ok (row : Option Nat)
  | err (error : String)
deriving DecidableEq

/-- The `success` field of a `find_row` envelope. -/
def FindResult.success : FindResult → Bool
  | .ok _ => true
  | .err _ => false

/-- The search loop of `find_row` (lines 732-737): 1-indexed enumerate, match
on a non-empty row whose first cell equals the value (case-sensitive). -/
def findLoop (value : String) (idx : Nat) : List (List String) → Option Nat
  | [] => none
  | row :: rest =>
    match row with
    | [] => findLoop value (idx + 1) rest
    | cell :: _ => if cell = value then some idx else findLoop value (idx + 1) rest

/-- `find_row` (lines 691-740): the search range is `range_notation or
"column:column"` (Python `or`: an empty string also falls back), the read goes
through `read_sheet`, and a read failure is returned unchanged. -/
def find_row (spreadsheetId _sheetName column value : String) (rangeA1 : Option String)
    (fetch : String → ApiOutcome (List (List String))) : FindResult :=
  let searchRange :=
    match rangeA1 with
    | some r => if r = "" then column ++ ":" ++ column else r
    | none => column ++ ":" ++ column
  match read_sheet spreadsheetId (fetch searchRange) with
  | .err e => .err e
  | .ok values _ _ => .ok (findLoop value 1 values)

/-! ## The dispatcher (sheets_helper.py lines 19-145)

The payloads of the `values` / `rows` keys are opaque to the dispatcher, so
they are a type parameter.  Key absence is `none`.  The `Except` result is
the validation stage: `.error` is the `{success: False, error: ...}` envelope
returned before anything else runs, `.ok` names the single underlying call
(which is where credential resolution and the network request happen). -/

/-- A `sheets_from_spec` specification dictionary.  The Python key
`range_notation` is the `rangeA1` field. -/
structure SheetsSpec (α : Type) where
  spreadsheet_id : Option String
  sheet_name : Option String
  operation : Option String
  values : Option α
  rows : Option α
  rangeA1 : Option String
  column : Option String
  value : Option String

/-- The underlying library call selected by the dispatcher. -/
inductive PlannedCall (α : Type) where
  | read (sid sheet : String) (rangeA1 : Option String)
  | readDicts (sid sheet : String) (rangeA1 : Option String)
  | append (sid sheet : String) (values : α)
  | appendRows (sid sheet : String) (rows : α)
  | update (sid sheet rangeA1 : String) (values : α)
  | find (sid sheet col value : String) (rangeA1 : Option String)

/-- Lines 93-94: the missing ones among the three always-required keys, in
the source's fixed order. -/
def missingRequired (spec : SheetsSpec α) : List String :=
  (if spec.spreadsheet_id.isNone then ["spreadsheet_id"] else []) ++
    (if spec.sheet_name.isNone then ["sheet_name"] else []) ++
    (if spec.operation.isNone then ["operation"] else [])

/-- `sheets_from_spec` (lines 19-145), up to the point where the chosen
library function is invoked. -/
def sheets_from_spec (spec : SheetsSpec α) : Except String (PlannedCall α) :=
  match spec.spreadsheet_id, spec.sheet_name, spec.operation with
  | some sid, some sheet, some op =>
    if op = "read" then .ok (.read sid sheet spec.rangeA1)
    else if op = "read_dicts" then .ok (.readDicts sid sheet spec.rangeA1)
    else if op = "append" then
      match spec.values with
      | none => .error "Missing 'values' field for append operation"
      | some v => .ok (.append sid sheet v)
    else if op = "append_rows" then
      match spec.rows with
      | none => .error "Missing 'rows' field for append_rows operation"
      | some r => .ok (.appendRows sid sheet r)
    else if op = "update" then
      match spec.rangeA1 with
      | none => .error "Missing 'range_notation' field for update operation"
      | some rng =>
        match spec.values with
        | none => .error "Missing 'values' field for update operation"
        | some v => .ok (.update sid sheet rng v)
    else if op = "find" then
      match spec.column with
      | none => .error "Missing 'column' field for find operation"
      | some col =>
        match spec.value with
        | none => .error "Missing 'value' field for find operation"
        | some v => .ok (.find sid sheet col v spec.rangeA1)
    else .error ("Unknown operation: " ++ op)
  | _, _, _ => .error ("Missing required fields: " ++ joinComma (missingRequired spec))

/-! ## Linear issue helpers (reference-files/linear_API/create_linear_issue.py)

These helpers do not build envelopes: every failure path prints and calls
`sys.exit(1)`, so `SystemExit` escapes the function.  `LinearOutcome.exits`
models that. -/

/-- Return value of a Linear helper, or the `sys.exit` code that escaped. -/
inductive LinearOutcome (α : Type) where
  | ok (v : α)
  | exits (code : Nat)

/-- A Linear GraphQL HTTP response with its parsed body. -/
structure LinearHttpResponse (α : Type) where
  status : Nat
  body : α

/-- `query_linear` (lines 101-119): any non-200 status prints the error and
calls `sys.exit(1)`; a 200 returns the parsed body. -/
def query_linear (response : LinearHttpResponse α) : LinearOutcome α :=
  if response.status ≠ 200 then .exits 1 else .ok response.body

/-- `get_issue_id_by_identifier` (lines 174-191): the body abstracts the
parsed `data.issue.id`, `none` when the issue does not exist (the vendor's
not-found condition). -/
def get_issue_id_by_identifier (response : LinearHttpResponse (Option String)) :
    LinearOutcome (Option String) :=
  match query_linear response with
  | .exits c => .exits c
  | .ok issueId => .ok issueId

/-- A created Linear comment (the fields the source reads back). -/
structure LinearComment where
  id : String
  body : String
deriving DecidableEq

/-- Parsed body of the `CommentCreate` mutation response: whether the
`errors` key is present, the `commentCreate.success` flag, and the comment. -/
structure CommentCreatePayload where
  hasErrors : Bool
  success : Bool
  comment : LinearComment
deriving DecidableEq

/-- `create_comment` (lines 635-699): look up the issue id, then run the
mutation; a missing issue, GraphQL errors, or `success: false` all print and
`sys.exit(1)` — no `{success, error}` envelope is ever returned. -/
def create_comment (issueLookup : LinearHttpResponse (Option String))
    (mutate : String → LinearHttpResponse CommentCreatePayload)
    (_issueIdentifier _commentBody : String) : LinearOutcome LinearComment :=
  match get_issue_id_by_identifier issueLookup with
  | .exits c => .exits c
  | .ok none => .exits 1
  | .ok (some issueId) =>
    match query_linear (mutate issueId) with
    | .exits c => .exits c
    | .ok payload =>
      if payload.hasErrors then .exits 1
      else if payload.success then .ok payload.comment
      else .exits 1

/-! ## Theorems -/

/-! ### The retrieval loop (claims C2, C3, C5) -/

theorem resolveLoop_exhausts (table : String → Option (Option String))
    (order : List String) (tried invoked : List String)
    (h : ∀ x ∈ order, ∀ w, table x = some w → pyTruthy w = false) :
    resolveLoop table order tried invoked =
      (none, tried ++ order.map (triedLabel table),
        invoked ++ order.filter (fun x => (table x).isSome)) := by
  induction order generalizing tried invoked with
  | nil => simp [resolveLoop]
  | cons p rest ih =>
    cases hp : table p with
    | none =>
      simp only [resolveLoop, hp]
      rw [ih _ _ (fun x hx w hw => h x (List.mem_cons_of_mem _ hx) w hw)]
      simp [triedLabel, hp, List.append_assoc]
    | some w =>
      have hw : pyTruthy w = false := h p (List.mem_cons_self _ _) w hp
      simp only [resolveLoop, hp, hw, Bool.false_eq_true, if_false]
      rw [ih _ _ (fun x hx u hu => h x (List.mem_cons_of_mem _ hx) u hu)]
      simp [triedLabel, hp, List.append_assoc]

/-- C2: for every strategy table and every resolution order whose first
truthy strategy is `k` (everything before `k` is unknown or yields an absent
or empty value), the loop returns exactly `k`'s value, and the strategies at
the positions after `k` are never invoked: the invoked-keys log gains only
the known keys before `k`, then `k` itself. -/
theorem resolver_first_match_short_circuits
    (table : String → Option (Option String)) (pre : List String) (k : String)
    (post : List String) (tried invoked : List String) (v : Option String)
    (hk : table k = some v) (hv : pyTruthy v = true)
    (hpre : ∀ x ∈ pre, ∀ w, table x = some w → pyTruthy w = false) :
    resolveLoop table (pre ++ k :: post) tried invoked =
      (v, tried ++ pre.map (triedLabel table),
        invoked ++ pre.filter (fun x => (table x).isSome) ++ [k]) := by
  induction pre generalizing tried invoked with
  | nil => simp [resolveLoop, hk, hv]
  | cons p pre ih =>
    rw [List.cons_append]
    cases hp : table p with
    | none =>
      simp only [resolveLoop, hp]
      rw [ih _ _ (fun x hx w hw => hpre x (List.mem_cons_of_mem _ hx) w hw)]
      simp [triedLabel, hp, List.append_assoc]
    | some w =>
      have hw : pyTruthy w = false := hpre p (List.mem_cons_self _ _) w hp
      simp only [resolveLoop, hp, hw, Bool.false_eq_true, if_false]
      rw [ih _ _ (fun x hx u hu => hpre x (List.mem_cons_of_mem _ hx) u hu)]
      simp [triedLabel, hp, List.append_assoc]

/-- Witness for C2: a concrete table where `a` is known but absent, `x` is
unknown, `b` resolves; `c` (after the match) is not in the invoked log. -/
theorem resolver_first_match_witness :
    resolveLoop
        (fun s => if s = "a" then some none
          else if s = "b" then some (some "SECRET") else none)
        ["a", "x", "b", "c"] [] [] =
      (some "SECRET", ["a", "x (unknown)"], ["a", "b"]) := by
  have hpre : ∀ x ∈ ["a", "x"], ∀ w,
      (fun s => if s = "a" then some none
        else if s = "b" then some (some "SECRET") else none) x = some w →
      pyTruthy w = false := by
    intro x hx w hw
    simp only [List.mem_cons, List.not_mem_nil, or_false] at hx
    rcases hx with rfl | rfl
    · have h2 : (none : Option String) = w := Option.some.inj hw
      subst h2
      rfl
    · simp at hw
  exact resolver_first_match_short_circuits
    (fun s => if s = "a" then some none
      else if s = "b" then some (some "SECRET") else none)
    ["a", "x"] "b" ["c"] [] [] (some "SECRET") rfl rfl hpre

/-- C3: when no strategy in the order yields a non-empty value (in particular
when every key is unknown), resolution fails with the `GoogleSheetsAuthError`
message that lists every attempted key in order — unknown keys marked
`" (unknown)"` — followed by the static guidance naming the configured
sources and the override variable; unknown keys are never a hard error and
never invoke anything. -/
theorem resolver_exhaustion_diagnostic (table : String → Option (Option String))
    (sourceEnv : Option String)
    (h : ∀ x ∈ parseSources sourceEnv, ∀ w, table x = some w → pyTruthy w = false) :
    (resolveCredentialData table sourceEnv).1 =
        .error (authErrorMessage ((parseSources sourceEnv).map (triedLabel table)))
    ∧ (resolveCredentialData table sourceEnv).2 =
        (parseSources sourceEnv).filter (fun x => (table x).isSome)
    ∧ ∀ x, table x = none →
        triedLabel table x = x ++ " (unknown)" ∧
        x ∉ (resolveCredentialData table sourceEnv).2 := by
  have hr := resolveLoop_exhausts table (parseSources sourceEnv) [] [] h
  refine ⟨?_, ?_, ?_⟩
  · simp [resolveCredentialData, hr]
  · simp [resolveCredentialData, hr]
  · intro x hx
    refine ⟨by simp [triedLabel, hx], ?_⟩
    simp [resolveCredentialData, hr, List.mem_filter, hx]

/-- Witness for C3: the real strategy table with an all-unknown override
order `"foo,bar"`; the message marks both keys unknown and nothing is
invoked. -/
theorem resolver_exhaustion_witness :
    (resolveCredentialData (CREDENTIAL_SOURCES ⟨some "foo,bar", none, none, none, none⟩)
        (some "foo,bar")).1 =
      .error (authErrorMessage ["foo (unknown)", "bar (unknown)"])
    ∧ (resolveCredentialData (CREDENTIAL_SOURCES ⟨some "foo,bar", none, none, none, none⟩)
        (some "foo,bar")).2 = [] := by
  have hpre : ∀ x ∈ parseSources (some "foo,bar"), ∀ w,
      CREDENTIAL_SOURCES ⟨some "foo,bar", none, none, none, none⟩ x = some w →
      pyTruthy w = false := by
    intro x hx w hw
    have hx2 : x ∈ ["foo", "bar"] := hx
    simp only [List.mem_cons, List.not_mem_nil, or_false] at hx2
    rcases hx2 with rfl | rfl <;> simp [CREDENTIAL_SOURCES] at hw
  have h := resolver_exhaustion_diagnostic
    (CREDENTIAL_SOURCES ⟨some "foo,bar", none, none, none, none⟩) (some "foo,bar") hpre
  exact ⟨h.1, h.2.1⟩

/-- C5: an absent, empty, or whitespace-only raw lookup makes every concrete
strategy report a non-truthy value, and the loop then records the key as
tried and moves on — one step exactly as if the strategy had returned
nothing. -/
theorem blank_lookup_treated_absent (raw : Option String)
    (h : raw = none ∨ ∃ w, raw = some w ∧ pyStrip w = "") :
    (pyTruthy (fromEnvGS raw) = false ∧ pyTruthy (fromJsonEnvGS raw) = false ∧
      pyTruthy (fromKeychainGS raw) = false ∧ pyTruthy (from1PasswordGS raw) = false) ∧
    ∀ (table : String → Option (Option String)) (k : String)
      (rest tried invoked : List String) (v : Option String),
      table k = some v → pyTruthy v = false →
      resolveLoop table (k :: rest) tried invoked =
        resolveLoop table rest (tried ++ [k]) (invoked ++ [k]) := by
  constructor
  · rcases h with rfl | ⟨w, rfl, hw⟩
    · exact ⟨rfl, rfl, rfl, rfl⟩
    · by_cases hwe : w = ""
      · subst hwe
        exact ⟨rfl, rfl, rfl, rfl⟩
      · refine ⟨?_, ?_, ?_, ?_⟩ <;>
          simp [fromEnvGS, fromJsonEnvGS, fromKeychainGS, from1PasswordGS,
            stdoutOrNone, pyTruthy, hw, hwe]
  · intro table k rest tried invoked v hk hv
    simp [resolveLoop, hk, hv]

/-- Witness for C5: a whitespace-only environment value, and one concrete
loop step over a strategy that yielded it. -/
theorem blank_lookup_treated_absent_witness :
    pyTruthy (fromEnvGS (some "   ")) = false ∧
    resolveLoop (fun s => if s = "env" then some (fromEnvGS (some "   ")) else none)
        ["env", "next"] [] [] =
      resolveLoop (fun s => if s = "env" then some (fromEnvGS (some "   ")) else none)
        ["next"] ["env"] ["env"] := by
  have h := blank_lookup_treated_absent (some "   ") (Or.inr ⟨"   ", rfl, by decide⟩)
  exact ⟨h.1.1,
    h.2 (fun s => if s = "env" then some (fromEnvGS (some "   ")) else none)
      "env" ["next"] [] [] (fromEnvGS (some "   ")) rfl h.1.1⟩

/-! ### Override order parsing (claim C4) -/

theorem pyLower_ne_empty (s : String) (h : s ≠ "") : pyLower s ≠ "" := by
  intro he
  apply h
  have hd : (s.data.map Char.toLower) = ("" : String).data := congrArg String.data he
  simp only [String.data] at hd
  have hnil : s.data = [] := List.map_eq_nil_iff.mp hd
  cases s
  simp_all

/-- C4: the comma-separated override string is split on commas, items that
strip to empty are dropped, and the rest are trimmed and lower-cased — the
spec's example parses as stated — while an absent or empty override variable
yields the hard-coded default order. -/
theorem override_order_parsing :
    parseSources (some "Env, KEYCHAIN , ,1Password") = ["env", "keychain", "1password"]
    ∧ parseSources none = ["json", "env", "keychain", "1password"]
    ∧ parseSources (some "") = ["json", "env", "keychain", "1password"]
    ∧ (∀ s item, item ∈ parseSources (some s) → s ≠ "" →
        ∃ raw, raw ∈ pySplitComma s ∧ pyStrip raw ≠ "" ∧ item = pyLower (pyStrip raw))
    ∧ ∀ s, "" ∉ parseSources (some s) := by
  refine ⟨by decide, rfl, rfl, ?_, ?_⟩
  · intro s item hmem hs
    simp only [parseSources, if_neg hs, List.mem_map, List.mem_filter] at hmem
    obtain ⟨raw, ⟨hraw, hkeep⟩, hitem⟩ := hmem
    refine ⟨raw, hraw, ?_, hitem.symm⟩
    intro he
    rw [he] at hkeep
    simp at hkeep
  · intro s hmem
    by_cases hs : s = ""
    · subst hs
      exact absurd hmem (by decide)
    · simp only [parseSources, if_neg hs, List.mem_map, List.mem_filter] at hmem
      obtain ⟨raw, ⟨_, hkeep⟩, hitem⟩ := hmem
      have hne : pyStrip raw ≠ "" := by
        intro he
        rw [he] at hkeep
        simp at hkeep
      exact pyLower_ne_empty (pyStrip raw) hne hitem

/-- Witness for C4: the spec's example string and the absent-variable
default. -/
theorem override_order_parsing_witness :
    parseSources (some "Env, KEYCHAIN , ,1Password") = ["env", "keychain", "1password"]
    ∧ parseSources none = ["json", "env", "keychain", "1password"]
    ∧ "" ∉ parseSources (some "a,,b") :=
  ⟨override_order_parsing.1, override_order_parsing.2.1,
    override_order_parsing.2.2.2.2 "a,,b"⟩

/-! ### Post-processing of a resolved secret (claim C6) -/

theorem postProcessParsed_no_deref (w : CredWorld) (cred : String) :
    ∀ r, CredEffect.opDeref r ∉ (postProcessParsed w cred).2 := by
  intro r
  unfold postProcessParsed
  split
  · simp
  · cases hf : w.fileLoad cred <;> simp

/-- C6: the decision chain over a resolved secret.  An `op://` secret gets
exactly one dereference — never a JSON parse or file read of the raw
reference — and a failed dereference raises naming the reference; a secret
that is not a reference and parses as JSON is used inline with no file
access; otherwise it is treated as a file path and a missing file raises the
file-not-found condition. -/
theorem credential_postprocessing_chain (w : CredWorld) (s out : String) :
    (strStartsWith s "op://" = true → w.opRead s = none →
      postProcess w s =
        (.authError ("Failed to read 1Password reference: " ++ s), [.opDeref s]))
    ∧ (strStartsWith s "op://" = true → w.opRead s = some out →
      postProcess w s =
          ((postProcessParsed w (pyStrip out)).1,
            .opDeref s :: (postProcessParsed w (pyStrip out)).2)
        ∧ (∀ r, CredEffect.opDeref r ∈ (postProcess w s).2 → r = s)
        ∧ (pyStrip out ≠ s →
            CredEffect.jsonParse s ∉ (postProcess w s).2 ∧
            CredEffect.fileRead s ∉ (postProcess w s).2))
    ∧ (strStartsWith s "op://" = false → w.jsonParses s = true →
      postProcess w s = (.inlineCreds s, [.jsonParse s]))
    ∧ (strStartsWith s "op://" = false → w.jsonParses s = false →
      w.fileLoad s = .notFound →
      postProcess w s =
        (.authError ("Service account file not found: " ++ s),
          [.jsonParse s, .fileRead s])) := by
  refine ⟨?_, ?_, ?_, ?_⟩
  · intro hs hop
    simp [postProcess, hs, hop]
  · intro hs hop
    have hpp : postProcess w s =
        ((postProcessParsed w (pyStrip out)).1,
          .opDeref s :: (postProcessParsed w (pyStrip out)).2) := by
      simp [postProcess, hs, hop]
    refine ⟨hpp, ?_, ?_⟩
    · intro r hr
      rw [hpp] at hr
      simp only [List.mem_cons] at hr
      rcases hr with h1 | h1
      · exact (CredEffect.opDeref.injEq r s).mp (by exact congrArg id h1) |>.symm ▸ rfl
      · exact absurd h1 (postProcessParsed_no_deref w (pyStrip out) r)
    · intro hne
      rw [hpp]
      constructor
      · simp only [List.mem_cons]
        rintro (h1 | h1)
        · cases h1
        · revert h1
          unfold postProcessParsed
          split
          · simp
            intro he
            exact hne he.symm
          · cases hf : w.fileLoad (pyStrip out) <;> simp <;> intro he <;> exact hne he.symm
      · simp only [List.mem_cons]
        rintro (h1 | h1)
        · cases h1
        · revert h1
          unfold postProcessParsed
          split
          · simp
          · cases hf : w.fileLoad (pyStrip out) <;> simp <;> intro he <;> exact hne he.symm
  · intro hs hj
    simp [postProcess, hs, postProcessParsed, hj]
  · intro hs hj hf
    simp [postProcess, hs, postProcessParsed, hj, hf]

/-- Witness for C6: a world where the `op` CLI fails — the reference is named
in the raised message, and the only access is the single dereference. -/
theorem credential_postprocessing_chain_witness :
    postProcess ⟨fun _ => none, fun _ => false, fun _ => .notFound⟩ "op://Personal/x" =
      (.authError ("Failed to read 1Password reference: " ++ "op://Personal/x"),
        [.opDeref "op://Personal/x"])
    ∧ postProcess ⟨fun _ => none, fun _ => false, fun _ => .notFound⟩ "/no/such/file" =
      (.authError ("Service account file not found: " ++ "/no/such/file"),
        [.jsonParse "/no/such/file", .fileRead "/no/such/file"]) := by
  constructor
  · exact (credential_postprocessing_chain
      ⟨fun _ => none, fun _ => false, fun _ => .notFound⟩ "op://Personal/x" "").1
      (by decide) rfl
  · exact (credential_postprocessing_chain
      ⟨fun _ => none, fun _ => false, fun _ => .notFound⟩ "/no/such/file" "").2.2.2
      (by decide) rfl rfl

/-! ### Structured reads (claims C7, C10) -/

theorem dictInsert_fresh (d : List (String × String)) (k v : String)
    (h : k ∉ d.map Prod.fst) : dictInsert d k v = d ++ [(k, v)] := by
  unfold dictInsert
  rw [if_neg]
  intro hany
  obtain ⟨p, hp, he⟩ := List.any_eq_true.mp hany
  exact h (by
    have : p.1 = k := by simpa using he
    exact this ▸ List.mem_map_of_mem Prod.fst hp)

theorem pyDictOfPairs_foldl (pairs acc : List (String × String))
    (h : ((acc ++ pairs).map Prod.fst).Nodup) :
    pairs.foldl (fun d p => dictInsert d p.1 p.2) acc = acc ++ pairs := by
  induction pairs generalizing acc with
  | nil => simp
  | cons p rest ih =>
    have hk : p.1 ∉ acc.map Prod.fst := by
      intro hmem
      rw [List.map_append] at h
      have hdisj := (List.nodup_append.mp h).2.2
      exact hdisj hmem (by simp)
    rw [List.foldl_cons, dictInsert_fresh acc p.1 p.2 hk]
    rw [ih (acc ++ [p]) (by simpa using h)]
    simp

/-- Pairs with pairwise-distinct keys are left unchanged by `dict(...)`. -/
theorem pyDictOfPairs_nodup (pairs : List (String × String))
    (h : (pairs.map Prod.fst).Nodup) : pyDictOfPairs pairs = pairs := by
  have := pyDictOfPairs_foldl pairs [] (by simpa using h)
  simpa [pyDictOfPairs] using this

theorem zip_map_fst (a : List α) (b : List β) :
    (a.zip b).map Prod.fst = a.take b.length := by
  induction a generalizing b with
  | nil => simp
  | cons x xs ih =>
    cases b with
    | nil => simp
    | cons y ys => simp [ih]

theorem zip_map_snd (a : List α) (b : List β) :
    (a.zip b).map Prod.snd = b.take a.length := by
  induction a generalizing b with
  | nil => simp
  | cons x xs ih =>
    cases b with
    | nil => simp
    | cons y ys => simp [ih]

theorem padded_length_ge (headers row : List String) :
    headers.length ≤ (row ++ List.replicate (headers.length - row.length) "").length := by
  simp only [List.length_append, List.length_replicate]
  omega

/-- With pairwise-distinct headers the Python dict for one row is exactly the
zip of the headers with the padded row. -/
theorem rowDict_eq_zip (headers row : List String) (hn : headers.Nodup) :
    rowDict headers row =
      headers.zip (row ++ List.replicate (headers.length - row.length) "") := by
  unfold rowDict
  apply pyDictOfPairs_nodup
  rw [zip_map_fst]
  exact hn.sublist (List.take_sublist _ _)

/-- C7: a successful read of a non-empty grid, viewed as structured rows,
returns success with the first row as headers, one dictionary per remaining
row — each keyed by the headers and padded with `""` up to the header
width — and the data-row count. -/
theorem read_sheet_as_dicts_structured (sid : String) (headers : List String)
    (dataRows : List (List String)) (hn : headers.Nodup) :
    read_sheet_as_dicts sid (.ok (headers :: dataRows)) =
      .ok (dataRows.map (fun row =>
            headers.zip (row ++ List.replicate (headers.length - row.length) "")))
        dataRows.length headers := by
  have hrw : ∀ row, rowDict headers row =
      headers.zip (row ++ List.replicate (headers.length - row.length) "") :=
    fun row => rowDict_eq_zip headers row hn
  simp [read_sheet_as_dicts, read_sheet, hrw]

/-- Witness for C7: the spec's end-to-end example grid. -/
theorem read_sheet_as_dicts_structured_witness :
    read_sheet_as_dicts "S1" (.ok [["H1", "H2"], ["v1", "v2"]]) =
      .ok [[("H1", "v1"), ("H2", "v2")]] 1 ["H1", "H2"] := by
  have h := read_sheet_as_dicts_structured "S1" ["H1", "H2"] [["v1", "v2"]] (by decide)
  simpa using h

/-- C10: a data row longer than the header row is silently truncated: the
read still succeeds with one dictionary per row, each dictionary has exactly
one key per header, and an oversized row contributes exactly its first
`headers.length` cells as the values. -/
theorem read_sheet_as_dicts_truncates_oversized (sid : String) (headers : List String)
    (dataRows : List (List String)) (hn : headers.Nodup) :
    read_sheet_as_dicts sid (.ok (headers :: dataRows)) =
      .ok (dataRows.map (rowDict headers)) dataRows.length headers
    ∧ (∀ row, (rowDict headers row).map Prod.fst = headers)
    ∧ ∀ row, headers.length ≤ row.length →
        (rowDict headers row).map Prod.snd = row.take headers.length := by
  refine ⟨by simp [read_sheet_as_dicts, read_sheet], ?_, ?_⟩
  · intro row
    rw [rowDict_eq_zip headers row hn, zip_map_fst]
    exact List.take_of_length_le (padded_length_ge headers row)
  · intro row hlen
    rw [rowDict_eq_zip headers row hn, zip_map_snd]
    have hz : headers.length - row.length = 0 := Nat.sub_eq_zero_of_le hlen
    rw [hz]
    simp

/-- Witness for C10: a 2-column header with a 3-cell data row — the extra
cell is dropped, the read succeeds. -/
theorem read_sheet_as_dicts_truncates_oversized_witness :
    read_sheet_as_dicts "S1" (.ok [["H1", "H2"], ["v1", "v2", "extra"]]) =
      .ok [rowDict ["H1", "H2"] ["v1", "v2", "extra"]] 1 ["H1", "H2"]
    ∧ (rowDict ["H1", "H2"] ["v1", "v2", "extra"]).map Prod.fst = ["H1", "H2"]
    ∧ (rowDict ["H1", "H2"] ["v1", "v2", "extra"]).map Prod.snd = ["v1", "v2"] := by
  have h := read_sheet_as_dicts_truncates_oversized "S1" ["H1", "H2"]
    [["v1", "v2", "extra"]] (by decide)
  exact ⟨h.1, h.2.1 ["v1", "v2", "extra"],
    h.2.2 ["v1", "v2", "extra"] (by decide)⟩

/-! ### Find value (claim C8) -/

theorem findLoop_none (value : String) (values : List (List String))
    (h : ∀ r ∈ values, r.head? ≠ some value) :
    ∀ idx, findLoop value idx values = none := by
  induction values with
  | nil => intro idx; rfl
  | cons row rest ih =>
    intro idx
    have hrow := h row (List.mem_cons_self _ _)
    cases row with
    | nil => exact ih (fun r hr => h r (List.mem_cons_of_mem _ hr)) (idx + 1)
    | cons cell cs =>
      have hne : cell ≠ value := by
        intro he
        exact hrow (by simp [he])
      simp only [findLoop, if_neg hne]
      exact ih (fun r hr => h r (List.mem_cons_of_mem _ hr)) (idx + 1)

theorem findLoop_first (value : String) (pre : List (List String))
    (row : List String) (rest : List (List String))
    (hpre : ∀ r ∈ pre, r.head? ≠ some value) (hrow : row.head? = some value) :
    ∀ idx, findLoop value idx (pre ++ row :: rest) = some (idx + pre.length) := by
  induction pre with
  | nil =>
    intro idx
    cases row with
    | nil => simp at hrow
    | cons cell cs =>
      have : cell = value := by simpa using hrow
      simp [findLoop, this]
  | cons p pre ih =>
    intro idx
    have hp := hpre p (List.mem_cons_self _ _)
    rw [List.cons_append]
    cases p with
    | nil =>
      simp only [findLoop]
      rw [ih (fun r hr => hpre r (List.mem_cons_of_mem _ hr)) (idx + 1)]
      congr 1
      simp only [List.length_cons]
      omega
    | cons cell cs =>
      have hne : cell ≠ value := by
        intro he
        exact hp (by simp [he])
      simp only [findLoop, if_neg hne]
      rw [ih (fun r hr => hpre r (List.mem_cons_of_mem _ hr)) (idx + 1)]
      congr 1
      simp [List.length_cons]
      omega

/-- C8: over a successfully read column, `find_row` succeeds with the
1-indexed position of the first row whose first cell equals the search value
exactly, and succeeds with `row = none` when no row matches. -/
theorem find_row_first_match :
    (∀ (sid sheet col value : String) (rng : Option String)
        (pre : List (List String)) (row : List String) (rest : List (List String)),
      (∀ r ∈ pre, r.head? ≠ some value) → row.head? = some value →
      find_row sid sheet col value rng (fun _ => .ok (pre ++ row :: rest)) =
        .ok (some (pre.length + 1)))
    ∧ ∀ (sid sheet col value : String) (rng : Option String)
        (values : List (List String)),
      (∀ r ∈ values, r.head? ≠ some value) →
      find_row sid sheet col value rng (fun _ => .ok values) = .ok none := by
  constructor
  · intro sid sheet col value rng pre row rest hpre hrow
    simp only [find_row, read_sheet]
    rw [findLoop_first value pre row rest hpre hrow 1]
    rw [Nat.add_comm]
  · intro sid sheet col value rng values h
    simp only [find_row, read_sheet]
    rw [findLoop_none value values h 1]

/-- Witness for C8: the spec's example column, found at row 3, and an absent
value giving `row = none`. -/
theorem find_row_first_match_witness :
    find_row "S1" "Sheet1" "A" "Acme Corp" none
        (fun _ => .ok [["Company A"], ["Company B"], ["Acme Corp"]]) =
      .ok (some 3)
    ∧ find_row "S1" "Sheet1" "A" "Absent Corp" none
        (fun _ => .ok [["Company A"], ["Company B"], ["Acme Corp"]]) =
      .ok none := by
  constructor
  · exact find_row_first_match.1 "S1" "Sheet1" "A" "Acme Corp" none
      [["Company A"], ["Company B"]] ["Acme Corp"] [] (by decide) rfl
  · exact find_row_first_match.2 "S1" "Sheet1" "A" "Absent Corp" none
      [["Company A"], ["Company B"], ["Acme Corp"]] (by decide)

/-! ### Dispatcher validation (claim C9) -/

/-- C9: a missing required key makes the dispatcher return the validation
error envelope naming the missing field(s) — an `Except.error` is produced
before any `PlannedCall` (the single place where credential resolution and
the network call happen) is selected. -/
theorem sheets_from_spec_validates_early {α : Type} (spec : SheetsSpec α) :
    (spec.spreadsheet_id = none ∨ spec.sheet_name = none ∨ spec.operation = none →
      sheets_from_spec spec =
        .error ("Missing required fields: " ++ joinComma (missingRequired spec)))
    ∧ (∀ sid sheet, spec.spreadsheet_id = some sid → spec.sheet_name = some sheet →
        spec.operation = some "append" → spec.values = none →
        sheets_from_spec spec = .error "Missing 'values' field for append operation")
    ∧ (∀ sid sheet, spec.spreadsheet_id = some sid → spec.sheet_name = some sheet →
        spec.operation = some "append_rows" → spec.rows = none →
        sheets_from_spec spec = .error "Missing 'rows' field for append_rows operation")
    ∧ (∀ sid sheet, spec.spreadsheet_id = some sid → spec.sheet_name = some sheet →
        spec.operation = some "update" → spec.rangeA1 = none →
        sheets_from_spec spec =
          .error "Missing 'range_notation' field for update operation")
    ∧ (∀ sid sheet rng, spec.spreadsheet_id = some sid → spec.sheet_name = some sheet →
        spec.operation = some "update" → spec.rangeA1 = some rng → spec.values = none →
        sheets_from_spec spec = .error "Missing 'values' field for update operation")
    ∧ (∀ sid sheet, spec.spreadsheet_id = some sid → spec.sheet_name = some sheet →
        spec.operation = some "find" → spec.column = none →
        sheets_from_spec spec = .error "Missing 'column' field for find operation")
    ∧ ∀ sid sheet col, spec.spreadsheet_id = some sid → spec.sheet_name = some sheet →
        spec.operation = some "find" → spec.column = some col → spec.value = none →
        sheets_from_spec spec = .error "Missing 'value' field for find operation" := by
  obtain ⟨sid?, sheet?, op?, values?, rows?, rng?, col?, val?⟩ := spec
  refine ⟨?_, ?_, ?_, ?_, ?_, ?_, ?_⟩
  · intro h
    simp only at h
    unfold sheets_from_spec
    rcases sid? with _ | sid
    · rfl
    rcases sheet? with _ | sheet
    · rfl
    rcases op? with _ | op
    · rfl
    rcases h with h | h | h <;> cases h
  · intro sid sheet h1 h2 h3 h4
    simp only at h1 h2 h3 h4
    subst h1; subst h2; subst h3; subst h4
    simp [sheets_from_spec]
  · intro sid sheet h1 h2 h3 h4
    simp only at h1 h2 h3 h4
    subst h1; subst h2; subst h3; subst h4
    simp [sheets_from_spec]
  · intro sid sheet h1 h2 h3 h4
    simp only at h1 h2 h3 h4
    subst h1; subst h2; subst h3; subst h4
    simp [sheets_from_spec]
  · intro sid sheet rng h1 h2 h3 h4 h5
    simp only at h1 h2 h3 h4 h5
    subst h1; subst h2; subst h3; subst h4; subst h5
    simp [sheets_from_spec]
  · intro sid sheet h1 h2 h3 h4
    simp only at h1 h2 h3 h4
    subst h1; subst h2; subst h3; subst h4
    simp [sheets_from_spec]
  · intro sid sheet col h1 h2 h3 h4 h5
    simp only at h1 h2 h3 h4 h5
    subst h1; subst h2; subst h3; subst h4; subst h5
    simp [sheets_from_spec]

/-- Witness for C9: a spec missing `sheet_name`, and an `append` spec missing
`values`, both rejected with the named fields. -/
theorem sheets_from_spec_validates_early_witness :
    sheets_from_spec (α := List String)
        ⟨some "S1", none, some "read", none, none, none, none, none⟩ =
      .error ("Missing required fields: " ++ joinComma ["sheet_name"])
    ∧ sheets_from_spec (α := List String)
        ⟨some "S1", some "Sheet1", some "append", none, none, none, none, none⟩ =
      .error "Missing 'values' field for append operation" := by
  constructor
  · exact (sheets_from_spec_validates_early
      ⟨some "S1", none, some "read", none, none, none, none, none⟩).1
      (Or.inr (Or.inl rfl))
  · exact (sheets_from_spec_validates_early
      ⟨some "S1", some "Sheet1", some "append", none, none, none, none, none⟩).2.1
      "S1" "Sheet1" rfl rfl rfl rfl

/-! ### The uniform error envelope (claim C1)

The six spreadsheet wrappers return the `{success, ...}` envelope on every
failure of the underlying lookup/transport.  The Linear wrappers do not:
`create_comment` on a vendor not-found condition terminates the process, so
the claim as stated over all vendor-facing operations is refuted below. -/

/-- Counterexample to C1 as stated: the Linear `create_comment` operation,
given a successful transport whose issue lookup reports the 404-equivalent
"issue not found" condition, exits the process with code 1 (a `SystemExit`
escaping the wrapper) and returns no `{success: false, error: ...}`
envelope at all. -/
theorem create_comment_not_found_exits :
    create_comment ⟨200, none⟩ (fun _ => ⟨200, ⟨false, true, ⟨"", ""⟩⟩⟩)
        "LUM-1" "status update" = .exits 1
    ∧ ∀ c, create_comment ⟨200, none⟩ (fun _ => ⟨200, ⟨false, true, ⟨"", ""⟩⟩⟩)
        "LUM-1" "status update" ≠ .ok c :=
  ⟨rfl, fun _ h => nomatch h⟩

/-- C1 (amended to the spreadsheet wrappers): for every failure of the
underlying lookup or transport — the 404 not-found condition included — each
spreadsheet operation returns the uniform envelope with `success = false` and
the uniformly mapped error message, and (being total functions into the
envelope type) lets no exception escape. -/
theorem sheets_wrappers_return_envelope (sid sheet rangeStr col value : String)
    (rng : Option String) (values : List String) (rows grid : List (List String))
    (f : ApiFailure) :
    read_sheet sid (.fail f) = .err (failureText sid f)
    ∧ read_sheet_as_dicts sid (.fail f) = .err (failureText sid f)
    ∧ append_row sid values (fun _ => .fail f) = .err (failureText sid f)
    ∧ append_rows sid rows (fun _ => .fail f) = .err (failureText sid f)
    ∧ update_range sid sheet rangeStr rows (fun _ _ => .fail f) =
        .err (failureText sid f)
    ∧ find_row sid sheet col value rng (fun _ => .fail f) = .err (failureText sid f)
    ∧ (read_sheet sid (.fail f)).success = false
    ∧ (read_sheet_as_dicts sid (.fail f)).success = false
    ∧ (append_row sid values (fun _ => .fail f)).success = false
    ∧ (append_rows sid rows (fun _ => .fail f)).success = false
    ∧ (update_range sid sheet rangeStr rows (fun _ _ => .fail f)).success = false
    ∧ (find_row sid sheet col value rng (fun _ => .fail f)).success = false
    ∧ (read_sheet sid (.ok grid)).success = true
    ∧ ∀ m, failureText sid (.httpError 404 m) =
        "Spreadsheet or sheet not found: " ++ sid := by
  have hread : read_sheet sid (.fail f) = .err (failureText sid f) := by
    cases f <;> simp only [read_sheet, failureText] <;> split <;> rfl
  have hdicts : read_sheet_as_dicts sid (.fail f) = .err (failureText sid f) := by
    simp [read_sheet_as_dicts, hread]
  have happ : append_row sid values (fun _ => .fail f) = .err (failureText sid f) := by
    cases f <;> simp only [append_row, failureText] <;> split <;> rfl
  have happs : append_rows sid rows (fun _ => .fail f) = .err (failureText sid f) := by
    cases f <;> simp only [append_rows, failureText] <;> split <;> rfl
  have hupd : update_range sid sheet rangeStr rows (fun _ _ => .fail f) =
      .err (failureText sid f) := by
    cases f <;> simp only [update_range, failureText] <;> split <;> rfl
  have hfind : find_row sid sheet col value rng (fun _ => .fail f) =
      .err (failureText sid f) := by
    simp [find_row, hread]
  refine ⟨hread, hdicts, happ, happs, hupd, hfind,
    by rw [hread]; rfl, by rw [hdicts]; rfl, by rw [happ]; rfl, by rw [happs]; rfl,
    by rw [hupd]; rfl, by rw [hfind]; rfl, rfl, fun m => rfl⟩
